import Mathlib

/-!
Verification of the receipt-tracker scraping pipeline.

This file gives a shallow embedding of the pipeline implemented in
`receipt_models.py`, `receipt_scraper.py`, `authenticator.py` and
`error_handler.py`, and proves the frozen claims about it.

Conventions of the embedding:
* Python strings are `String` / `List Char`; regular-expression searches of
  the fixed pattern lists used by the code are modelled as specialised
  leftmost-match scanners with the same backtracking behaviour.
* Python floats are modelled as exact rationals `ℚ`.
* `datetime` values are modelled as a `DateTime` record of numeric fields;
  `datetime.strptime` is modelled format by format, with the validity
  check performed by the `datetime` constructor made explicit (`mkDate`).
* Stateful objects (`ReceiptBatch`, `RateLimiter`, `ErrorRecovery`) are
  records and their mutating methods are state-passing functions.
-/

namespace ReceiptTracker

/-! ### Character and string helpers (Python `str` / `re` primitives) -/

/-- Python whitespace for `str.split` / regex `\s` (ASCII portion). -/
def isSpaceC (c : Char) : Bool :=
  c = ' ' || c = '\t' || c = '\n' || c = '\r' || c = '\x0b' || c = '\x0c'

def digitVal (c : Char) : Nat := c.toNat - '0'.toNat

def isLetterAZ (c : Char) : Bool :=
  ('a' ≤ c && c ≤ 'z') || ('A' ≤ c && c ≤ 'Z')

/-- Case-insensitive literal prefix match; returns the remainder on success. -/
def dropPrefixCI : List Char → List Char → Option (List Char)
  | [], l => some l
  | _ :: _, [] => none
  | p :: ps, c :: cs => if p.toLower = c.toLower then dropPrefixCI ps cs else none

def isPrefixCI (p l : List Char) : Bool := (dropPrefixCI p l).isSome

/-- Case-insensitive suffix test. -/
def endsCI (p l : List Char) : Bool := isPrefixCI p.reverse l.reverse

/-- `str.split()` on whitespace (accumulator form). -/
def wordsAux : List Char → List Char → List (List Char)
  | [], acc => if acc.isEmpty then [] else [acc.reverse]
  | c :: cs, acc =>
    if isSpaceC c then
      if acc.isEmpty then wordsAux cs [] else acc.reverse :: wordsAux cs []
    else wordsAux cs (c :: acc)

def pyWords (l : List Char) : List (List Char) := wordsAux l []

/-- `' '.join(ws)`. -/
def joinSp : List (List Char) → List Char
  | [] => []
  | [w] => w
  | w :: ws => w ++ ' ' :: joinSp ws

def lstripWS (l : List Char) : List Char := l.dropWhile isSpaceC

def rstripWS (l : List Char) : List Char := (l.reverse.dropWhile isSpaceC).reverse

def stripWS (l : List Char) : List Char := lstripWS (rstripWS l)

def lowerL (l : List Char) : List Char := l.map Char.toLower

/-- Exact (case-sensitive) list prefix test. -/
def isPrefixB : List Char → List Char → Bool
  | [], _ => true
  | _ :: _, [] => false
  | p :: ps, c :: cs => p = c && isPrefixB ps cs

/-- Exact substring containment, Python `needle in hay`. -/
def containsSub (n : List Char) : List Char → Bool
  | [] => n.isEmpty
  | c :: t => isPrefixB n (c :: t) || containsSub n t

/-! ### `Receipt._clean_location` (receipt_models.py, lines 38-47) -/

/-- `re.sub(r'^(Costco\s*Wholesale\s*|Costco\s*)', '', location, flags=IGNORECASE)`:
the first alternative (`Costco\s*Wholesale\s*`) is tried first; `\s*` is
greedy and, being followed by a non-whitespace literal, consumes the maximal
whitespace run. -/
def stripCostcoPrefix (l : List Char) : List Char :=
  match dropPrefixCI "costco".data l with
  | none => l
  | some r =>
    let r1 := r.dropWhile isSpaceC
    match dropPrefixCI "wholesale".data r1 with
    | some r2 => r2.dropWhile isSpaceC
    | none => r1

def dropLastN (n : Nat) (l : List Char) : List Char := l.take (l.length - n)

/-- `re.sub(r'\s*(Warehouse|Store)\s*$', '', location, flags=IGNORECASE)`:
anchored at the end, so it removes one trailing `Warehouse`/`Store` keyword
together with the whitespace around it. -/
def stripWarehouseSuffix (l : List Char) : List Char :=
  let r := rstripWS l
  if endsCI "warehouse".data r then rstripWS (dropLastN 9 r)
  else if endsCI "store".data r then rstripWS (dropLastN 5 r)
  else l

/-- `Receipt._clean_location`: collapse whitespace (`' '.join(split())`),
strip the `Costco[ Wholesale]` prefix and the `Warehouse|Store` suffix
case-insensitively, then `strip()`. -/
def cleanLocationL (l : List Char) : List Char :=
  stripWS (stripWarehouseSuffix (stripCostcoPrefix (joinSp (pyWords l))))

def cleanLocation (s : String) : String := ⟨cleanLocationL s.data⟩

example : cleanLocation "Costco Wholesale #123 Warehouse" = "#123" := by decide

/-! ### `datetime` model -/

structure DateTime where
  year : Nat
  month : Nat
  day : Nat
  hour : Nat := 0
  minute : Nat := 0
  second : Nat := 0
deriving DecidableEq, Repr

def isLeap (y : Nat) : Bool := y % 4 = 0 && (y % 100 ≠ 0 || y % 400 = 0)

def daysInMonth (y m : Nat) : Nat :=
  if m = 2 then (if isLeap y then 29 else 28)
  else if m = 4 ∨ m = 6 ∨ m = 9 ∨ m = 11 then 30
  else 31

/-- The date is one that the `datetime` constructor accepts. -/
def validDate (d : DateTime) : Prop :=
  1 ≤ d.year ∧ d.year ≤ 9999 ∧ 1 ≤ d.month ∧ d.month ≤ 12 ∧
    1 ≤ d.day ∧ d.day ≤ daysInMonth d.year d.month

instance (d : DateTime) : Decidable (validDate d) := by
  unfold validDate; infer_instance

/-- The `datetime(year, month, day)` construction performed by `strptime`:
returns `none` exactly when the constructor would raise `ValueError`
(which `_parse_date` catches before trying the next format). -/
def mkDate (y m d : Nat) : Option DateTime :=
  if 1 ≤ y ∧ y ≤ 9999 ∧ 1 ≤ m ∧ m ≤ 12 ∧ 1 ≤ d ∧ d ≤ daysInMonth y m then
    some ⟨y, m, d, 0, 0, 0⟩
  else none

theorem mkDate_valid {y m d : Nat} {dt : DateTime} (h : mkDate y m d = some dt) :
    validDate dt := by
  unfold mkDate at h
  split at h
  · cases h; exact ‹_›
  · cases h

/-- `datetime.date()` (the date portion, time of day dropped). -/
def dateTriple (d : DateTime) : Nat × Nat × Nat := (d.year, d.month, d.day)

/-- `datetime` comparison (lexicographic on the components). -/
def dtLtB (a b : DateTime) : Bool :=
  if a.year ≠ b.year then a.year < b.year
  else if a.month ≠ b.month then a.month < b.month
  else if a.day ≠ b.day then a.day < b.day
  else if a.hour ≠ b.hour then a.hour < b.hour
  else if a.minute ≠ b.minute then a.minute < b.minute
  else a.second < b.second

/-! ### `datetime.strptime` model for the formats used by `_parse_date`

Each component matcher mirrors the regex fragment CPython's `_strptime`
compiles for the directive (`%m` → `1[0-2]|0[1-9]|[1-9]`, `%d` →
`3[01]|[12]\d|0[1-9]|[1-9]`, `%Y` → `\d{4}`, `%y` → `\d{2}`, `%B`/`%b` →
the month-name alternation, whitespace → `\s+`), and the whole input must
be consumed ("unconverted data remains" otherwise). -/

def matchM : List Char → Option (Nat × List Char)
  | c1 :: c2 :: rest =>
    if c1 = '1' ∧ '0' ≤ c2 ∧ c2 ≤ '2' then some (10 + digitVal c2, rest)
    else if c1 = '0' ∧ '1' ≤ c2 ∧ c2 ≤ '9' then some (digitVal c2, rest)
    else if '1' ≤ c1 ∧ c1 ≤ '9' then some (digitVal c1, c2 :: rest)
    else none
  | [c1] => if '1' ≤ c1 ∧ c1 ≤ '9' then some (digitVal c1, []) else none
  | [] => none

def matchD : List Char → Option (Nat × List Char)
  | c1 :: c2 :: rest =>
    if c1 = '3' ∧ (c2 = '0' ∨ c2 = '1') then some (30 + digitVal c2, rest)
    else if (c1 = '1' ∨ c1 = '2') ∧ c2.isDigit then
      some (10 * digitVal c1 + digitVal c2, rest)
    else if c1 = '0' ∧ '1' ≤ c2 ∧ c2 ≤ '9' then some (digitVal c2, rest)
    else if '1' ≤ c1 ∧ c1 ≤ '9' then some (digitVal c1, c2 :: rest)
    else none
  | [c1] => if '1' ≤ c1 ∧ c1 ≤ '9' then some (digitVal c1, []) else none
  | [] => none

def matchY4 : List Char → Option (Nat × List Char)
  | a :: b :: c :: d :: rest =>
    if a.isDigit ∧ b.isDigit ∧ c.isDigit ∧ d.isDigit then
      some (1000 * digitVal a + 100 * digitVal b + 10 * digitVal c + digitVal d, rest)
    else none
  | _ => none

/-- `%y`: two digits, 0-68 → 2000s, 69-99 → 1900s. -/
def matchY2 : List Char → Option (Nat × List Char)
  | a :: b :: rest =>
    if a.isDigit ∧ b.isDigit then
      let v := 10 * digitVal a + digitVal b
      some (if v ≤ 68 then 2000 + v else 1900 + v, rest)
    else none
  | _ => none

def matchLit (ch : Char) : List Char → Option (List Char)
  | c :: rest => if c = ch then some rest else none
  | [] => none

/-- Whitespace in a `strptime` format: `\s+`. -/
def matchWS1 : List Char → Option (List Char)
  | c :: rest => if isSpaceC c then some (rest.dropWhile isSpaceC) else none
  | [] => none

def monthFullNames : List (List Char × Nat) :=
  [("january".data, 1), ("february".data, 2), ("march".data, 3),
   ("april".data, 4), ("may".data, 5), ("june".data, 6), ("july".data, 7),
   ("august".data, 8), ("september".data, 9), ("october".data, 10),
   ("november".data, 11), ("december".data, 12)]

def monthAbbrNames : List (List Char × Nat) :=
  [("jan".data, 1), ("feb".data, 2), ("mar".data, 3), ("apr".data, 4),
   ("may".data, 5), ("jun".data, 6), ("jul".data, 7), ("aug".data, 8),
   ("sep".data, 9), ("oct".data, 10), ("nov".data, 11), ("dec".data, 12)]

def matchName : List (List Char × Nat) → List Char → Option (Nat × List Char)
  | [], _ => none
  | (nm, v) :: tbl, l =>
    match dropPrefixCI nm l with
    | some r => some (v, r)
    | none => matchName tbl l

/-- `%m<sep>%d<sep>` followed by a year directive (`%Y` or `%y`). -/
def rawMDY (sep : Char) (yearM : List Char → Option (Nat × List Char))
    (l : List Char) : Option (Nat × Nat × Nat) := do
  let (m, l1) ← matchM l
  let l2 ← matchLit sep l1
  let (d, l3) ← matchD l2
  let l4 ← matchLit sep l3
  let (y, l5) ← yearM l4
  if l5 = [] then pure (y, m, d) else none

/-- `%Y-%m-%d`. -/
def rawYMD (l : List Char) : Option (Nat × Nat × Nat) := do
  let (y, l1) ← matchY4 l
  let l2 ← matchLit '-' l1
  let (m, l3) ← matchM l2
  let l4 ← matchLit '-' l3
  let (d, l5) ← matchD l4
  if l5 = [] then pure (y, m, d) else none

/-- `%B %d, %Y` / `%b %d, %Y` (`comma = true`) and `%B %d %Y` / `%b %d %Y`. -/
def rawMonDY (tbl : List (List Char × Nat)) (comma : Bool)
    (l : List Char) : Option (Nat × Nat × Nat) := do
  let (m, l1) ← matchName tbl l
  let l2 ← matchWS1 l1
  let (d, l3) ← matchD l2
  let l4 ← (if comma then matchLit ',' l3 else some l3)
  let l5 ← matchWS1 l4
  let (y, l6) ← matchY4 l5
  if l6 = [] then pure (y, m, d) else none

/-- The format list of `_parse_date`, in order. -/
def formatList : List (List Char → Option (Nat × Nat × Nat)) :=
  [rawMDY '/' matchY4, rawMDY '-' matchY4, rawYMD, rawMDY '/' matchY2,
   rawMonDY monthFullNames true, rawMonDY monthAbbrNames true,
   rawMonDY monthFullNames false, rawMonDY monthAbbrNames false]

/-- Inner loop of `_parse_date`: try each format with `strptime`, first
success wins; a `ValueError` (regex mismatch or invalid calendar date)
moves on to the next format. -/
def tryFormatsL : List (List Char → Option (Nat × Nat × Nat)) → List Char →
    Option DateTime
  | [], _ => none
  | f :: fs, s =>
    match (f s).bind (fun t => mkDate t.1 t.2.1 t.2.2) with
    | some d => some d
    | none => tryFormatsL fs s

theorem tryFormatsL_valid :
    ∀ (fs : List (List Char → Option (Nat × Nat × Nat))) (s : List Char)
      (d : DateTime), tryFormatsL fs s = some d → validDate d := by
  intro fs
  induction fs with
  | nil => intro s d h; cases h
  | cons f fs ih =>
    intro s d h
    unfold tryFormatsL at h
    revert h
    cases hb : (f s).bind (fun t => mkDate t.1 t.2.1 t.2.2) with
    | none => intro h; exact ih s d h
    | some d' =>
      intro h
      cases h
      rcases Option.bind_eq_some.mp hb with ⟨t, _, hmk⟩
      exact mkDate_valid hmk

/-! ### The date regex patterns of `_parse_date` (receipt_scraper.py 363-369)

`re.findall(pattern, text)[0]` is the leftmost match; each `tryXAt` function
decides whether the pattern matches starting at the given position (with the
same greedy/backtracking behaviour as the regex) and returns the text of the
first capture group, and `findFirstM` scans the positions left to right. -/

def findFirstM (f : List Char → Option (List Char)) : List Char → Option (List Char)
  | [] => f []
  | c :: rest =>
    match f (c :: rest) with
    | some r => some r
    | none => findFirstM f rest

/-- `\d{1,2}<sep>`: greedy, so two digits before the separator are preferred. -/
def d12sep (sep : Char) : List Char → Option (List Char × List Char)
  | a :: b :: c :: rest =>
    if a.isDigit ∧ b.isDigit ∧ c = sep then some ([a, b, c], rest)
    else if a.isDigit ∧ b = sep then some ([a, b], c :: rest)
    else none
  | [a, b] => if a.isDigit ∧ b = sep then some ([a, b], []) else none
  | _ => none

/-- Exactly `n` digits (`\d{n}`). -/
def dN : Nat → List Char → Option (List Char × List Char)
  | 0, l => some ([], l)
  | _ + 1, [] => none
  | n + 1, c :: rest =>
    if c.isDigit then (dN n rest).map (fun p => (c :: p.1, p.2)) else none

/-- Trailing `\d{1,2}` (greedy). -/
def d12end : List Char → Option (List Char)
  | a :: b :: _ =>
    if a.isDigit ∧ b.isDigit then some [a, b]
    else if a.isDigit then some [a] else none
  | [a] => if a.isDigit then some [a] else none
  | [] => none

/-- `(\d{1,2}<sep>\d{1,2}<sep>\d{ylen})` at a position. -/
def tryNumDateAt (sep : Char) (ylen : Nat) (l : List Char) : Option (List Char) := do
  let (p1, l1) ← d12sep sep l
  let (p2, l2) ← d12sep sep l1
  let (yd, _) ← dN ylen l2
  pure (p1 ++ p2 ++ yd)

/-- `(\d{4}-\d{1,2}-\d{1,2})` at a position. -/
def tryIsoDateAt (l : List Char) : Option (List Char) := do
  let (y, l1) ← dN 4 l
  let l2 ← matchLit '-' l1
  let (mid, l3) ← d12sep '-' l2
  let dl ← d12end l3
  pure (y ++ '-' :: (mid ++ dl))

/-- `\s+\d{4}` as a tail condition. -/
def wsThen4 : List Char → Bool
  | c :: r => isSpaceC c && (dN 4 (r.dropWhile isSpaceC)).isSome
  | [] => false

/-- `,?\s+\d{4}` as a tail condition (`,?` greedy). -/
def commaTail (l : List Char) : Bool :=
  (match l with
   | ',' :: r => wsThen4 r
   | _ => false) || wsThen4 l

/-- `\d{1,2},?\s+\d{4}` as a tail condition. -/
def day12Tail : List Char → Bool
  | a :: b :: r =>
    (a.isDigit && b.isDigit && commaTail r) || (a.isDigit && commaTail (b :: r))
  | _ => false

def monthAbbrList : List (List Char) :=
  ["jan".data, "feb".data, "mar".data, "apr".data, "may".data, "jun".data,
   "jul".data, "aug".data, "sep".data, "oct".data, "nov".data, "dec".data]

/-- The `(Jan|Feb|...|Dec)` alternation; returns the three matched input
characters (the capture group) and the remainder. -/
def matchMonTok (l : List Char) : Option (List Char × List Char) :=
  if monthAbbrList.any (fun a => isPrefixCI a l) then some (l.take 3, l.drop 3)
  else none

/-- `(Jan|...|Dec)[a-z]*\s+\d{1,2},?\s+\d{4}` at a position, IGNORECASE.
The single capture group covers only the month token, so this is all
`re.findall` returns for the pattern. -/
def tryMonthAt (l : List Char) : Option (List Char) :=
  match matchMonTok l with
  | none => none
  | some (mon, l1) =>
    let l2 := l1.dropWhile isLetterAZ
    match l2 with
    | c :: r => if isSpaceC c && day12Tail (r.dropWhile isSpaceC) then some mon else none
    | [] => none

/-- The five date patterns of `_parse_date`, in order. -/
def datePatterns : List (List Char → Option (List Char)) :=
  [findFirstM (tryNumDateAt '/' 4), findFirstM (tryNumDateAt '-' 4),
   findFirstM tryIsoDateAt, findFirstM (tryNumDateAt '/' 2),
   findFirstM tryMonthAt]

/-- Outer loop of `_parse_date`: first pattern that has a match supplies
`matches[0]`; if no format parses it, move on to the next pattern. -/
def patLoop : List (List Char → Option (List Char)) → List Char → Option DateTime
  | [], _ => none
  | p :: ps, c =>
    match p c with
    | some s =>
      match tryFormatsL formatList s with
      | some d => some d
      | none => patLoop ps c
    | none => patLoop ps c

theorem patLoop_valid :
    ∀ (ps : List (List Char → Option (List Char))) (c : List Char)
      (d : DateTime), patLoop ps c = some d → validDate d := by
  intro ps
  induction ps with
  | nil => intro c d h; cases h
  | cons p ps ih =>
    intro c d h
    unfold patLoop at h
    cases hp : p c with
    | none => simp only [hp] at h; exact ih c d h
    | some s =>
      simp only [hp] at h
      cases hf : tryFormatsL formatList s with
      | none => simp only [hf] at h; exact ih c d h
      | some d' => simp only [hf] at h; cases h; exact tryFormatsL_valid _ _ _ hf

/-- `ReceiptScraper._parse_date` (receipt_scraper.py 357-394). -/
def parseDate (dateText fullText : String) : Option DateTime :=
  patLoop datePatterns (dateText.data ++ ' ' :: fullText.data)

theorem parseDate_valid {a b : String} {d : DateTime}
    (h : parseDate a b = some d) : validDate d :=
  patLoop_valid _ _ _ h

example : parseDate "03/15/2024" "" = some ⟨2024, 3, 15, 0, 0, 0⟩ := by decide
example : parseDate "March 15, 2024" "" = none := by decide
example : parseDate "abc" "" = none := by decide
example : parseDate "" "on 2024-03-05 we" = some ⟨2024, 3, 5, 0, 0, 0⟩ := by decide
example : parseDate "01/02/24" "" = some ⟨2024, 1, 2, 0, 0, 0⟩ := by decide

/-! ### `ReceiptScraper._parse_amount` (receipt_scraper.py 396-419) -/

/-- `\d+` (greedy run of digits, at least one). -/
def digits1 (l : List Char) : Option (List Char × List Char) :=
  let p := l.span Char.isDigit
  if p.1.isEmpty then none else some p

def digitsToNat (ds : List Char) : Nat :=
  ds.foldl (fun a c => 10 * a + digitVal c) 0

def pow10 : Nat → Nat
  | 0 => 1
  | n + 1 => 10 * pow10 n

/-- `float(s.replace(',', ''))` for the strings captured by the amount
patterns (digits, optionally a thousands comma, optionally `.` and
fraction digits), modelled as the exact decimal value. -/
def amountVal (s : List Char) : ℚ :=
  let s' := s.filter (fun c => c ≠ ',')
  let ip := s'.takeWhile (fun c => c ≠ '.')
  match s'.dropWhile (fun c => c ≠ '.') with
  | '.' :: frac =>
    mkRat (digitsToNat ip * pow10 frac.length + digitsToNat frac) (pow10 frac.length)
  | _ => mkRat (digitsToNat ip) 1

/-- `\$(\d+\.\d{2})` at a position. -/
def tryAmtDollarAt (l : List Char) : Option (List Char) := do
  let l1 ← matchLit '$' l
  let (ds, l2) ← digits1 l1
  let l3 ← matchLit '.' l2
  let (fr, _) ← dN 2 l3
  pure (ds ++ '.' :: fr)

/-- `\$(\d+,\d+\.\d{2})` at a position. -/
def tryAmtThousAt (l : List Char) : Option (List Char) := do
  let l1 ← matchLit '$' l
  let (d1, l2) ← digits1 l1
  let l3 ← matchLit ',' l2
  let (d2, l4) ← digits1 l3
  let l5 ← matchLit '.' l4
  let (fr, _) ← dN 2 l5
  pure (d1 ++ ',' :: (d2 ++ '.' :: fr))

/-- `\$(\d+)` at a position. -/
def tryAmtBareDollarAt (l : List Char) : Option (List Char) := do
  let l1 ← matchLit '$' l
  let (ds, _) ← digits1 l1
  pure ds

/-- `(\d+\.\d{2})` at a position. -/
def tryAmtDecimalAt (l : List Char) : Option (List Char) := do
  let (ds, l1) ← digits1 l
  let l2 ← matchLit '.' l1
  let (fr, _) ← dN 2 l2
  pure (ds ++ '.' :: fr)

/-- `Total[:\s]*\$?(\d+\.\d{2})` at a position, IGNORECASE. -/
def tryAmtTotalAt (l : List Char) : Option (List Char) := do
  let l1 ← dropPrefixCI "total".data l
  let l2 := l1.dropWhile (fun c => c = ':' || isSpaceC c)
  let l3 := match l2 with
    | '$' :: r => r
    | _ => l2
  let (ds, l4) ← digits1 l3
  let l5 ← matchLit '.' l4
  let (fr, _) ← dN 2 l5
  pure (ds ++ '.' :: fr)

/-- The five amount patterns of `_parse_amount`, in order. -/
def amountPatterns : List (List Char → Option (List Char)) :=
  [findFirstM tryAmtDollarAt, findFirstM tryAmtThousAt,
   findFirstM tryAmtBareDollarAt, findFirstM tryAmtDecimalAt,
   findFirstM tryAmtTotalAt]

/-- Loop of `_parse_amount`: first pattern with a match supplies `matches[0]`
(comma stripped, converted by `float`); no pattern matching returns `0.0`. -/
def amtLoop : List (List Char → Option (List Char)) → List Char → ℚ
  | [], _ => 0
  | p :: ps, c =>
    match p c with
    | some s => amountVal s
    | none => amtLoop ps c

/-- `ReceiptScraper._parse_amount`. -/
def parseAmount (amountText fullText : String) : ℚ :=
  amtLoop amountPatterns (amountText.data ++ ' ' :: fullText.data)

example : parseAmount "$45.67" "" = 45.67 := by
  rw [show (45.67 : ℚ) = mkRat 4567 100 by rw [Rat.mkRat_eq_div]; norm_num]; decide
example : parseAmount "$1,234.56" "" = 1234.56 := by
  rw [show (1234.56 : ℚ) = mkRat 123456 100 by rw [Rat.mkRat_eq_div]; norm_num]; decide
example : parseAmount "No amount" "" = 0 := by
  rw [show (0 : ℚ) = mkRat 0 1 by rw [Rat.mkRat_eq_div]; norm_num]; decide
example : parseAmount "" "Total: $12.50" = 12.5 := by
  rw [show (12.5 : ℚ) = mkRat 1250 100 by rw [Rat.mkRat_eq_div]; norm_num]; decide

/-! ### `ReceiptScraper._parse_location` (receipt_scraper.py 421-445) -/

/-- A character the capture group `[^,\n]` accepts. -/
def notCN (c : Char) : Bool := c ≠ ',' && c ≠ '\n'

/-- `<sep>+([^,\n]+)`: the separator run is greedy; if the character after
it cannot start the capture, the regex backtracks one usable separator
character into the capture. -/
def capAfterSep (sepP : Char → Bool) (l : List Char) : Option (List Char) :=
  let run := l.takeWhile sepP
  if run.isEmpty then none
  else
    let rest := l.drop run.length
    let borrow :=
      let r2 := (run.reverse.dropWhile (fun c => c = '\n')).reverse
      if 2 ≤ r2.length then some (r2.drop (r2.length - 1)) else none
    match rest with
    | c :: _ => if notCN c then some (rest.takeWhile notCN) else borrow
    | [] => borrow

/-- `<Keyword><sep>+([^,\n]+)` at a position, IGNORECASE. -/
def tryLocAt (key : String) (sepP : Char → Bool) (l : List Char) :
    Option (List Char) :=
  match dropPrefixCI key.data l with
  | none => none
  | some r => capAfterSep sepP r

def colonSp (c : Char) : Bool := c = ':' || isSpaceC c

/-- The four location patterns of `_parse_location`, in order:
`Costco\s+([^,\n]+)`, `Store[:\s]+([^,\n]+)`, `Location[:\s]+([^,\n]+)`,
`Warehouse[:\s]+([^,\n]+)`. -/
def locPatterns : List (List Char → Option (List Char)) :=
  [findFirstM (tryLocAt "costco" isSpaceC),
   findFirstM (tryLocAt "store" colonSp),
   findFirstM (tryLocAt "location" colonSp),
   findFirstM (tryLocAt "warehouse" colonSp)]

/-- Pattern loop of `_parse_location`: returns `matches[0].strip()` of the
first matching pattern. -/
def locLoop : List (List Char → Option (List Char)) → List Char →
    Option (List Char)
  | [], _ => none
  | p :: ps, c =>
    match p c with
    | some s => some (stripWS s)
    | none => locLoop ps c

/-- The fallback of `_parse_location`: scan the words for
`costco`/`warehouse`/`store` and return the next 1-3 words. -/
def fbWords : List (List Char) → Option (List Char)
  | [] => none
  | w :: rest =>
    if (lowerL w = "costco".data ∨ lowerL w = "warehouse".data ∨
        lowerL w = "store".data) ∧ rest ≠ [] then
      some (joinSp (rest.take 3))
    else fbWords rest

/-- `ReceiptScraper._parse_location`. -/
def parseLocation (locationText fullText : String) : String :=
  let c := locationText.data ++ ' ' :: fullText.data
  match locLoop locPatterns c with
  | some s => ⟨s⟩
  | none =>
    match fbWords (pyWords c) with
    | some s => ⟨s⟩
    | none => "Unknown Location"

example : parseLocation "Costco Store" "" = "Store" := by decide
example : parseLocation "Costco Wholesale #123" "" = "Wholesale #123" := by decide
example : parseLocation "nothing here" "" = "Unknown Location" := by decide

/-! ### `Receipt` (receipt_models.py 12-57) -/

structure Receipt where
  id : String
  date : DateTime
  location : String
  total_amount : ℚ
  currency : String := "USD"
  receipt_number : Option String := none
  member_number : Option String := none
  tax_amount : Option ℚ := none
  subtotal_amount : Option ℚ := none
  pdf_path : Option String := none
deriving DecidableEq

/-- The `Receipt(...)` constructor together with `__post_init__`: a truthy
(non-empty) location is normalized by `_clean_location`.  (The
string-amount branch of `__post_init__` does not arise: the scraper always
passes a float.) -/
def mkReceipt (id : String) (date : DateTime) (location : String)
    (total : ℚ) : Receipt :=
  { id := id, date := date,
    location := if location = "" then location else cleanLocation location,
    total_amount := total }

/-- One scraped container as handed to `_parse_receipt_data`: the relevant
`attributes` entries, the fallback-id ingredients, and the text fragments. -/
structure ScrapedData where
  dataReceiptId : Option String := none
  dataOrderId : Option String := none
  dataTransactionId : Option String := none
  elemId : Option String := none
  index : Nat := 0
  captureEpoch : Nat := 0
  dateText : String := ""
  amountText : String := ""
  locationText : String := ""
  text : String := ""

/-- Python `a or b or ...` over optional strings (absent and `""` are falsy). -/
def firstTruthy : List (Option String) → Option String
  | [] => none
  | some s :: rest => if s = "" then firstTruthy rest else some s
  | none :: rest => firstTruthy rest

/-- Identifier resolution of `_parse_receipt_data` (receipt_scraper.py 311-317). -/
def resolveId (d : ScrapedData) : String :=
  match firstTruthy [d.dataReceiptId, d.dataOrderId, d.dataTransactionId, d.elemId] with
  | some s => s
  | none => "receipt_" ++ toString d.index ++ "_" ++ toString d.captureEpoch

/-- The local `location` variable of `_parse_receipt_data`: the parsed
location, with the empty string replaced by `"Unknown Location"`
(`if not location:`). -/
def resolvedLocation (d : ScrapedData) : String :=
  if parseLocation d.locationText d.text = "" then "Unknown Location"
  else parseLocation d.locationText d.text

/-- `ReceiptScraper._parse_receipt_data` (receipt_scraper.py 307-355):
resolve the date (reject on failure), the amount (reject unless `> 0`),
the location (defaulting to `"Unknown Location"` when empty), and build
the `Receipt`. -/
def parseReceiptData (d : ScrapedData) : Option Receipt :=
  match parseDate d.dateText d.text with
  | none => none
  | some dt =>
    if parseAmount d.amountText d.text ≤ 0 then none
    else
      some (mkReceipt (resolveId d) dt (resolvedLocation d)
        (parseAmount d.amountText d.text))

/-! ### `ReceiptBatch` (receipt_models.py 97-127) and duplicate detection -/

structure ReceiptBatch where
  receipts : List Receipt := []
  total_count : Nat := 0
  scraped_count : Nat := 0
  failed_count : Nat := 0
  duplicate_count : Nat := 0
  date_range_start : Option DateTime := none
  date_range_end : Option DateTime := none

/-- `ReceiptBatch.add_receipt` (net effect of the sequential updates). -/
def addReceipt (b : ReceiptBatch) (r : Receipt) (isDup : Bool) : ReceiptBatch :=
  { receipts := if isDup then b.receipts else b.receipts ++ [r],
    scraped_count := if isDup then b.scraped_count else b.scraped_count + 1,
    duplicate_count := if isDup then b.duplicate_count + 1 else b.duplicate_count,
    failed_count := b.failed_count,
    total_count := b.total_count + 1,
    date_range_start :=
      match b.date_range_start with
      | none => some r.date
      | some s => if dtLtB r.date s then some r.date else some s,
    date_range_end :=
      match b.date_range_end with
      | none => some r.date
      | some e => if dtLtB e r.date then some r.date else some e }

/-- `ReceiptBatch.add_failed`. -/
def addFailed (b : ReceiptBatch) : ReceiptBatch :=
  { b with failed_count := b.failed_count + 1, total_count := b.total_count + 1 }

/-- `ReceiptScraper._is_duplicate_receipt` (receipt_scraper.py 478-485):
same `date.date()`, equal stored (normalized) location, amounts within
`0.01`, against the accepted receipts of the batch so far. -/
def isDuplicateReceipt (batch : ReceiptBatch) (r : Receipt) : Bool :=
  batch.receipts.any fun e =>
    decide (dateTriple e.date = dateTriple r.date) &&
    decide (e.location = r.location) &&
    decide (|e.total_amount - r.total_amount| < (0.01 : ℚ))

/-! ### Batch operation sequences (for the accumulator invariant) -/

inductive BatchOp where
  | record (r : Receipt) (isDup : Bool)
  | failed

def applyOp (b : ReceiptBatch) : BatchOp → ReceiptBatch
  | .record r dup => addReceipt b r dup
  | .failed => addFailed b

/-- `ReceiptBatch()` with its default fields. -/
def emptyBatch : ReceiptBatch := {}

/-- Counter coherence of a batch: every processed candidate is accounted
for exactly once, and `scraped_count` counts the accepted list. -/
def batchInv (b : ReceiptBatch) : Prop :=
  b.total_count = b.scraped_count + b.duplicate_count + b.failed_count ∧
    b.scraped_count = b.receipts.length

/-! ## Claim C6 -/

/-- C6: location normalization maps `"Costco Wholesale #123 Warehouse"` to
exactly `"#123"` (collapse whitespace, strip the leading
`Costco`/`Costco Wholesale` prefix and the trailing `Warehouse`/`Store`
suffix case-insensitively, then trim). -/
theorem clean_location_costco_wholesale_123 :
    cleanLocation "Costco Wholesale #123 Warehouse" = "#123" := by decide

/-! ## Claim C1 -/

/-- C1 (amended): every `Receipt` emitted by `_parse_receipt_data` has
`total_amount > 0` and a valid calendar date, and its stored location is
the normalization of the non-empty resolved location string; however the
normalization itself may produce the empty string (see
`emitted_location_can_be_empty`), so "non-empty after normalization" does
not hold in general. -/
theorem emitted_receipt_fields_amended (d : ScrapedData) (r : Receipt)
    (h : parseReceiptData d = some r) :
    0 < r.total_amount ∧ validDate r.date ∧
      resolvedLocation d ≠ "" ∧ r.location = cleanLocation (resolvedLocation d) := by
  unfold parseReceiptData at h
  cases hp : parseDate d.dateText d.text with
  | none => rw [hp] at h; cases h
  | some dt =>
    rw [hp] at h
    simp only at h
    split at h
    · cases h
    · next hamt =>
      cases h
      refine ⟨lt_of_not_le hamt, parseDate_valid hp, ?_, ?_⟩
      · unfold resolvedLocation
        split
        · decide
        · assumption
      · show (if resolvedLocation d = "" then resolvedLocation d
              else cleanLocation (resolvedLocation d)) = cleanLocation (resolvedLocation d)
        rw [if_neg]
        unfold resolvedLocation
        split
        · decide
        · assumption

/-- A scraped container whose resolved location is `"Store"` (captured by
the `Costco\s+([^,\n]+)` pattern from `"Costco Store"`), which the
`Warehouse|Store` suffix strip then normalizes to the empty string. -/
def exEmptyLoc : ScrapedData :=
  { dataReceiptId := some "r2", dateText := "01/02/2024",
    amountText := "$45.67", locationText := "Costco Store" }

/-- C1 counterexample: this candidate is emitted (not rejected) and its
stored, post-normalization location is the empty string, refuting
"`location` is non-empty after normalization". -/
theorem emitted_location_can_be_empty :
    Option.map Receipt.location (parseReceiptData exEmptyLoc) = some "" := by decide

/-- A well-behaved scraped container, used to instantiate
`emitted_receipt_fields_amended`. -/
def exGood : ScrapedData :=
  { dataReceiptId := some "r1", dateText := "01/02/2024",
    amountText := "$45.67", locationText := "Costco Bellevue" }

/-- The receipt `_parse_receipt_data` builds from `exGood`. -/
def exGoodReceipt : Receipt :=
  mkReceipt "r1" ⟨2024, 1, 2, 0, 0, 0⟩ "Bellevue" (mkRat 4567 100)

theorem emitted_receipt_fields_amended_witness :
    0 < exGoodReceipt.total_amount ∧ validDate exGoodReceipt.date ∧
      resolvedLocation exGood ≠ "" ∧
      exGoodReceipt.location = cleanLocation (resolvedLocation exGood) :=
  emitted_receipt_fields_amended exGood exGoodReceipt (by decide)

/-! ## Claim C2 -/

/-- C2: `_is_duplicate_receipt` returns `true` iff some already-accepted
batch member shares the calendar date (`date()` portion), has an identical
stored (normalized) location, and a total amount within `0.01`; and for a
candidate flagged as duplicate, `add_receipt` increments the duplicate
counter by one and leaves the accepted-receipt list unchanged. -/
theorem isDuplicate_iff_and_duplicate_increment (b : ReceiptBatch) (c : Receipt) :
    (isDuplicateReceipt b c = true ↔
      ∃ e ∈ b.receipts, dateTriple e.date = dateTriple c.date ∧
        e.location = c.location ∧ |e.total_amount - c.total_amount| < (0.01 : ℚ)) ∧
    (addReceipt b c true).duplicate_count = b.duplicate_count + 1 ∧
    (addReceipt b c true).receipts = b.receipts := by
  refine ⟨?_, rfl, rfl⟩
  simp only [isDuplicateReceipt, List.any_eq_true, Bool.and_eq_true,
    decide_eq_true_eq, and_assoc]

/-! ## Claim C10 -/

/-- C10: starting from the empty batch, any sequence of `add_receipt` /
`add_failed` calls keeps `total_count = scraped_count + duplicate_count +
failed_count` and `scraped_count = length receipts`; each single operation
preserves the invariant. -/
theorem batch_counter_invariant :
    (∀ ops : List BatchOp, batchInv (ops.foldl applyOp emptyBatch)) ∧
    (∀ (b : ReceiptBatch) (op : BatchOp), batchInv b → batchInv (applyOp b op)) := by
  have pres : ∀ (b : ReceiptBatch) (op : BatchOp), batchInv b → batchInv (applyOp b op) := by
    rintro b op ⟨h1, h2⟩
    cases op with
    | failed => exact ⟨by simp [applyOp, addFailed, h1]; omega, by simp [applyOp, addFailed, h2]⟩
    | record r dup =>
      cases dup with
      | false =>
        refine ⟨?_, ?_⟩ <;> simp [applyOp, addReceipt, h1, h2, List.length_append]
        omega
      | true =>
        refine ⟨?_, ?_⟩ <;> simp [applyOp, addReceipt, h1, h2]
        omega
  refine ⟨?_, pres⟩
  intro ops
  have gen : ∀ (l : List BatchOp) (b : ReceiptBatch), batchInv b →
      batchInv (l.foldl applyOp b) := by
    intro l
    induction l with
    | nil => intro b hb; exact hb
    | cons op l ih => intro b hb; exact ih _ (pres b op hb)
  exact gen ops emptyBatch ⟨rfl, rfl⟩

theorem batch_counter_invariant_witness :
    batchInv (applyOp emptyBatch BatchOp.failed) :=
  batch_counter_invariant.2 emptyBatch BatchOp.failed ⟨rfl, rfl⟩

/-! ## Claim C4 -/

/-- C4 (evaluation at the failing input): `"03/15/2024"` resolves to
2024-03-15 and `"abc"` matches no pattern (candidate rejected), as the
claim states; but an input containing `"March 15, 2024"` is also rejected:
the month-name pattern's only capture group covers just the month token,
so `re.findall` returns `"Mar"`, which none of the formats parses —
contradicting the claimed resolution to 2024-03-15. -/
theorem date_parsing_examples_eval :
    parseDate "03/15/2024" "" = some ⟨2024, 3, 15, 0, 0, 0⟩ ∧
    parseDate "abc" "" = none ∧
    parseReceiptData { dateText := "abc", amountText := "$45.67" } = none ∧
    parseDate "March 15, 2024" "" = none ∧
    parseReceiptData
      { dataReceiptId := some "r3", dateText := "March 15, 2024",
        amountText := "$45.67", locationText := "Costco Bellevue" } = none := by
  refine ⟨by decide, by decide, by decide, by decide, by decide⟩

/-! ## Claim C5 -/

/-- C5: the amount patterns are tried in order and the first numeric match,
thousands separators stripped, wins: `"$45.67"` gives 45.67,
`"$1,234.56"` gives 1234.56, an input with no currency/decimal pattern
gives 0; and a candidate whose amount resolves to 0 fails the `> 0`
validation and is rejected. -/
theorem amount_parsing_first_match (d : ScrapedData)
    (h : parseAmount d.amountText d.text = 0) :
    parseAmount "$45.67" "" = 45.67 ∧
    parseAmount "$1,234.56" "" = 1234.56 ∧
    parseAmount "No amount" "" = 0 ∧
    parseReceiptData d = none := by
  refine ⟨?_, ?_, ?_, ?_⟩
  · rw [show (45.67 : ℚ) = mkRat 4567 100 by rw [Rat.mkRat_eq_div]; norm_num]; decide
  · rw [show (1234.56 : ℚ) = mkRat 123456 100 by rw [Rat.mkRat_eq_div]; norm_num]; decide
  · rw [show (0 : ℚ) = mkRat 0 1 by rw [Rat.mkRat_eq_div]; norm_num]; decide
  · unfold parseReceiptData
    cases hp : parseDate d.dateText d.text with
    | none => rfl
    | some dt => simp only []; rw [if_pos (le_of_eq h)]

/-- A container with a parseable date but no currency/decimal pattern. -/
def exNoAmount : ScrapedData :=
  { dataReceiptId := some "r4", dateText := "01/02/2024", amountText := "No amount" }

theorem amount_parsing_first_match_witness :
    parseReceiptData exNoAmount = none :=
  (amount_parsing_first_match exNoAmount
    (by rw [show (0 : ℚ) = mkRat 0 1 by rw [Rat.mkRat_eq_div]; norm_num]; decide)).2.2.2

/-! ### `CostcoAuthenticator` (authenticator.py) -/

structure AuthResult where
  success : Bool
  message : String
  requires_2fa : Bool := false
  session_saved : Bool := false
deriving DecidableEq, Repr

/-- The post-submit page state that `_check_login_result` inspects: one
entry per error-indicator selector (`some text` when visible), one `Bool`
per 2FA / success-indicator selector, the current URL, and the number of
login-form fields the page still shows. -/
structure PageState where
  url : String
  errorIndicators : List (Option String)
  tfaIndicators : List Bool
  loginFieldsCount : Nat
  successIndicators : List Bool

/-- The first error-indicator loop: the first visible selector's text. -/
def firstVisibleText : List (Option String) → Option String
  | [] => none
  | some t :: _ => some t
  | none :: rest => firstVisibleText rest

/-- `'login' in url.lower() or 'signin' in ... or 'logon' in ...`. -/
def urlIsLoginPage (url : String) : Bool :=
  containsSub "login".data (lowerL url.data) ||
  containsSub "signin".data (lowerL url.data) ||
  containsSub "logon".data (lowerL url.data)

/-- `CostcoAuthenticator._check_login_result` (authenticator.py 210-287):
the ordered decision list on the post-submit page state. -/
def checkLoginResult (p : PageState) : AuthResult :=
  match firstVisibleText p.errorIndicators with
  | some t => { success := false, message := "Login error: " ++ t }
  | none =>
    if p.tfaIndicators.any id then
      { success := false, message := "2FA verification required", requires_2fa := true }
    else if urlIsLoginPage p.url && decide (0 < p.loginFieldsCount) then
      { success := false, message := "Still on login page after submission" }
    else if p.successIndicators.any id then
      { success := true, message := "Login successful" }
    else if !urlIsLoginPage p.url then
      { success := true, message := "Login successful - redirected" }
    else
      { success := false, message := "Login status unclear" }

/-- In `_check_login_result`, a `requires_2fa` result is always a failure
result (the only branch setting `requires_2fa` also sets `success=False`). -/
theorem checkLoginResult_2fa_not_success (p : PageState)
    (h : (checkLoginResult p).requires_2fa = true) :
    (checkLoginResult p).success = false := by
  revert h
  unfold checkLoginResult
  split
  · intro h; cases h
  · split
    · intro _; rfl
    · split
      · intro h; cases h
      · split
        · intro h; cases h
        · split
          · intro h; cases h
          · intro h; cases h

/-- The retry loop of `CostcoAuthenticator.login` (authenticator.py 32-63)
over the per-attempt results, tracking how many attempts were made and
how many backoff sleeps were taken: a success saves the session and
returns; a `requires_2fa` result returns as is; otherwise the loop sleeps
(only when another attempt remains) and retries. -/
def loginGo : List AuthResult → Nat → Nat → AuthResult × Nat × Nat
  | [], attempts, sleeps =>
    ({ success := false, message := "Login failed after max attempts" }, attempts, sleeps)
  | r :: rest, attempts, sleeps =>
    if r.success then ({ r with session_saved := true }, attempts + 1, sleeps)
    else if r.requires_2fa then (r, attempts + 1, sleeps)
    else loginGo rest (attempts + 1) (if rest.isEmpty then sleeps else sleeps + 1)

/-- `CostcoAuthenticator.login`, as a function of the list of per-attempt
results (one entry per attempt, `max_retries` entries in total). -/
def login (attemptResults : List AuthResult) : AuthResult × Nat × Nat :=
  loginGo attemptResults 0 0

theorem loginGo_2fa (pre : List AuthResult) (r : AuthResult)
    (rest : List AuthResult) (a s : Nat)
    (hpre : ∀ x ∈ pre, x.success = false ∧ x.requires_2fa = false)
    (h2 : r.requires_2fa = true) (hs : r.success = false) :
    loginGo (pre ++ r :: rest) a s = (r, a + (pre.length + 1), s + pre.length) := by
  induction pre generalizing a s with
  | nil => simp [loginGo, hs, h2]
  | cons x pre ih =>
    have hx := hpre x (by simp)
    have hrest : ∀ y ∈ pre, y.success = false ∧ y.requires_2fa = false :=
      fun y hy => hpre y (by simp [hy])
    have hne : (pre ++ r :: rest).isEmpty = false := by
      cases pre <;> rfl
    simp only [List.cons_append, loginGo, hx.1, hx.2, Bool.false_eq_true,
      if_false, List.append_eq, hne]
    rw [ih (a + 1) (s + 1) hrest]
    simp only [Prod.mk.injEq, List.length_cons, true_and]
    omega

/-! ## Claim C3 -/

/-- C3: `_check_login_result` implements exactly the ordered decision
list: (1) visible error indicator → fail with its text, regardless of URL
or success indicators; (2) visible 2FA indicator → requires-2FA; (3) URL
still matching login/signin/logon with a login-form field present → fail;
(4) visible success indicator → success; (5) URL no longer matching the
login patterns → success; (6) otherwise → "status unclear" failure. -/
theorem login_result_decision_list (p : PageState) (t : String) :
    (firstVisibleText p.errorIndicators = some t →
      checkLoginResult p = { success := false, message := "Login error: " ++ t }) ∧
    (firstVisibleText p.errorIndicators = none →
      p.tfaIndicators.any id = true →
      checkLoginResult p =
        { success := false, message := "2FA verification required",
          requires_2fa := true }) ∧
    (firstVisibleText p.errorIndicators = none →
      p.tfaIndicators.any id = false →
      urlIsLoginPage p.url = true → 0 < p.loginFieldsCount →
      checkLoginResult p =
        { success := false, message := "Still on login page after submission" }) ∧
    (firstVisibleText p.errorIndicators = none →
      p.tfaIndicators.any id = false →
      (urlIsLoginPage p.url && decide (0 < p.loginFieldsCount)) = false →
      p.successIndicators.any id = true →
      checkLoginResult p = { success := true, message := "Login successful" }) ∧
    (firstVisibleText p.errorIndicators = none →
      p.tfaIndicators.any id = false →
      p.successIndicators.any id = false →
      urlIsLoginPage p.url = false →
      checkLoginResult p = { success := true, message := "Login successful - redirected" }) ∧
    (firstVisibleText p.errorIndicators = none →
      p.tfaIndicators.any id = false →
      p.successIndicators.any id = false →
      urlIsLoginPage p.url = true → p.loginFieldsCount = 0 →
      checkLoginResult p = { success := false, message := "Login status unclear" }) := by
  refine ⟨?_, ?_, ?_, ?_, ?_, ?_⟩
  · intro he; unfold checkLoginResult; rw [he]
  · intro he h2; unfold checkLoginResult; rw [he]; simp [h2]
  · intro he h2 hu hf
    unfold checkLoginResult
    rw [he]
    simp [h2, hu, hf]
  · intro he h2 h3 hsucc
    unfold checkLoginResult
    rw [he]
    simp [h2, h3, hsucc]
  · intro he h2 hsucc hu
    unfold checkLoginResult
    rw [he]
    simp [h2, hsucc, hu]
  · intro he h2 hsucc hu hf
    unfold checkLoginResult
    rw [he]
    simp [h2, hsucc, hu, hf]

/-- A page state where an error banner, a 2FA indicator, a success
indicator and a login-like URL are all present at once: the error rule
wins. -/
def exErrPage : PageState :=
  { url := "https://www.costco.com/LogonForm",
    errorIndicators := [none, some "Invalid email or password."],
    tfaIndicators := [true],
    loginFieldsCount := 2,
    successIndicators := [true] }

theorem login_result_decision_list_witness :
    checkLoginResult exErrPage =
      { success := false, message := "Login error: Invalid email or password." } :=
  (login_result_decision_list exErrPage "Invalid email or password.").1 rfl

/-! ## Claim C7 -/

/-- C7: if some attempt's `_check_login_result` comes back with
`requires_2fa` (all earlier attempts having failed without 2FA), `login`
returns that result immediately: the attempt counter stops at that
attempt, no backoff sleep follows it (one sleep per earlier failed
attempt only), and the returned result has `success = false` and
`requires_2fa = true`. -/
theorem login_returns_2fa_immediately (pre rest : List AuthResult) (p : PageState)
    (hpre : ∀ x ∈ pre, x.success = false ∧ x.requires_2fa = false)
    (h2 : (checkLoginResult p).requires_2fa = true) :
    login (pre ++ checkLoginResult p :: rest) =
      (checkLoginResult p, pre.length + 1, pre.length) ∧
    (checkLoginResult p).success = false ∧
    (checkLoginResult p).requires_2fa = true := by
  have hs := checkLoginResult_2fa_not_success p h2
  refine ⟨?_, hs, h2⟩
  unfold login
  rw [loginGo_2fa pre (checkLoginResult p) rest 0 0 hpre h2 hs]
  simp

/-- A post-submit page showing a 2FA prompt (no error indicator). -/
def ex2faPage : PageState :=
  { url := "https://www.costco.com/LogonForm",
    errorIndicators := [none, none, none, none, none],
    tfaIndicators := [false, true],
    loginFieldsCount := 0,
    successIndicators := [false] }

theorem login_returns_2fa_immediately_witness :
    login [{ success := false, message := "Login error: bad credentials" },
           checkLoginResult ex2faPage] =
        (checkLoginResult ex2faPage, 2, 1) ∧
      (checkLoginResult ex2faPage).success = false ∧
      (checkLoginResult ex2faPage).requires_2fa = true := by
  have h := login_returns_2fa_immediately
    [{ success := false, message := "Login error: bad credentials" }] []
    ex2faPage (by decide) (by decide)
  simpa using h

/-! ### `RateLimiter` (error_handler.py 14-47)

Wall-clock instants are rationals (seconds); `wait_if_needed` reads the
clock once (`now`), so the blocking sleep ends at `now + blockTime` and
the randomized human-like delay ends at `now + blockTime + delay`, after
which the timestamp `now` is recorded. -/

structure RateLimiter where
  min_delay : ℚ := 2
  max_delay : ℚ := 8
  requests_per_minute : Nat := 10
  last_request_times : List ℚ := []

/-- `[t for t in self.last_request_times if t > cutoff]`, `cutoff = now - 60`. -/
def evict (ts : List ℚ) (now : ℚ) : List ℚ :=
  ts.filter fun t => decide (now - 60 < t)

/-- The blocking sleep of `wait_if_needed`: if, after eviction, the window
still holds at least `requests_per_minute` timestamps, sleep
`60 - (now - oldest)` (when positive). -/
def blockTime (rl : RateLimiter) (now : ℚ) : ℚ :=
  if rl.requests_per_minute ≤ (evict rl.last_request_times now).length then
    match (evict rl.last_request_times now).min? with
    | some oldest => max (60 - (now - oldest)) 0
    | none => 0
  else 0

/-- Effect of one gated call on the recorded timestamps: evict, then
append the call's `now`. -/
def recordCall (st : List ℚ) (t : ℚ) : List ℚ := evict st t ++ [t]

/-- `RateLimiter.wait_if_needed`: returns the instant at which the call
proceeds and the updated limiter. -/
def waitIfNeeded (rl : RateLimiter) (now delay : ℚ) : ℚ × RateLimiter :=
  (now + blockTime rl now + delay,
   { rl with last_request_times := recordCall rl.last_request_times now })

theorem recordCall_keepsAll {u : ℚ} :
    ∀ (ts init : List ℚ),
      (∀ t ∈ init, u - 60 < t ∧ t ≤ u) → (∀ t ∈ ts, u - 60 < t ∧ t ≤ u) →
      ts.foldl recordCall init = init ++ ts := by
  intro ts
  induction ts with
  | nil => intro init _ _; simp
  | cons t ts ih =>
    intro init hi hts
    have ht := hts t (by simp)
    have h1 : recordCall init t = init ++ [t] := by
      unfold recordCall evict
      rw [List.filter_eq_self.mpr]
      intro x hx
      have hxx := hi x hx
      simp only [decide_eq_true_eq]
      linarith [hxx.1, ht.2]
    simp only [List.foldl_cons, h1]
    rw [ih (init ++ [t]) ?_ ?_]
    · simp
    · intro x hx
      rcases List.mem_append.mp hx with h | h
      · exact hi x h
      · simp only [List.mem_singleton] at h
        subst h; exact ht
    · intro x hx; exact hts x (by simp [hx])

/-! ### `ErrorRecovery` (error_handler.py 210-241) -/

structure ErrorRecovery where
  errorCounts : String → Nat := fun _ => 0
  lastErrorTime : String → Option ℤ := fun _ => none

/-- `ErrorRecovery.record_error` at clock instant `now` (seconds). -/
def recordError (er : ErrorRecovery) (kind : String) (now : ℤ) : ErrorRecovery :=
  { errorCounts := fun k => if k = kind then er.errorCounts kind + 1 else er.errorCounts k,
    lastErrorTime := fun k => if k = kind then some now else er.lastErrorTime k }

/-- `timedelta.seconds` for a non-negative whole-second delta: the
seconds-within-day component, not the total elapsed seconds. -/
def tdSeconds (d : ℤ) : ℤ := d % 86400

/-- `ErrorRecovery.should_continue` (error_handler.py 225-235). -/
def shouldContinue (er : ErrorRecovery) (kind : String) (now : ℤ)
    (maxErrors : Nat := 5) (timeWindow : ℤ := 300) : Bool :=
  if maxErrors ≤ er.errorCounts kind then
    match er.lastErrorTime kind with
    | some last => if tdSeconds (now - last) < timeWindow then false else true
    | none => true
  else true

/-- `ErrorRecovery.reset_error_count`. -/
def resetErrorCount (er : ErrorRecovery) (kind : String) : ErrorRecovery :=
  { errorCounts := fun k => if k = kind then 0 else er.errorCounts k,
    lastErrorTime := fun k => if k = kind then none else er.lastErrorTime k }

/-- What the claim (and the method's own log message, "Too many ... errors
in {time_window}s") describe: the last occurrence lies within the
trailing window of `timeWindow` seconds. -/
def shouldContinueSpec (er : ErrorRecovery) (kind : String) (now : ℤ)
    (maxErrors : Nat := 5) (timeWindow : ℤ := 300) : Bool :=
  if maxErrors ≤ er.errorCounts kind then
    match er.lastErrorTime kind with
    | some last => if now - last < timeWindow then false else true
    | none => true
  else true

/-! ## Claim C8 -/

/-- C8: `wait_if_needed` first evicts the timestamps older than 60 seconds
(keeping exactly those with `now - t < 60`); if at least
`requests_per_minute` remain it blocks until the oldest remaining
timestamp is at least 60 seconds old (`m + 60 ≤ now + blockTime`); the
randomized delay is added after the block and before the new timestamp is
recorded; and a burst of `cap` calls inside a 60-second window leaves all
`cap` timestamps recorded, so the next call (still inside the window)
finds the full window and blocks until the oldest is 60 seconds old. -/
theorem rate_limiter_window_blocking (rl : RateLimiter) (now delay m u : ℚ)
    (ts : List ℚ) :
    ((waitIfNeeded rl now delay).2.last_request_times =
      evict rl.last_request_times now ++ [now] ∧
     (waitIfNeeded rl now delay).1 = now + blockTime rl now + delay ∧
     evict rl.last_request_times now =
       rl.last_request_times.filter fun t => decide (now - 60 < t)) ∧
    ((evict rl.last_request_times now).min? = some m →
      rl.requests_per_minute ≤ (evict rl.last_request_times now).length →
      m + 60 ≤ now + blockTime rl now) ∧
    ((∀ t ∈ ts, u - 60 < t ∧ t ≤ u) →
      ts.foldl recordCall [] = ts ∧ evict ts u = ts) := by
  refine ⟨⟨rfl, rfl, rfl⟩, ?_, ?_⟩
  · intro hm hc
    unfold blockTime
    rw [if_pos hc, hm]
    have h1 : (60 : ℚ) - (now - m) ≤ max (60 - (now - m)) 0 := le_max_left _ _
    linarith
  · intro hwin
    constructor
    · exact recordCall_keepsAll ts [] (by intro t ht; cases ht) hwin
    · unfold evict
      rw [List.filter_eq_self.mpr]
      intro x hx
      simp only [decide_eq_true_eq]
      exact (hwin x hx).1

/-- A limiter with a per-minute cap of 1 whose window already holds a call
made 30 seconds ago: the next call must block for the remaining 30
seconds, until that oldest timestamp is 60 seconds old. -/
def exLimiter : RateLimiter :=
  { requests_per_minute := 1, last_request_times := [0] }

theorem rate_limiter_window_blocking_witness :
    (0 : ℚ) + 60 ≤ 30 + blockTime exLimiter 30 ∧
    ([(0 : ℚ), 10].foldl recordCall [] = [0, 10] ∧ evict [(0 : ℚ), 10] 30 = [0, 10]) := by
  have hev : evict [(0 : ℚ)] 30 = [0] := by
    unfold evict
    rw [List.filter_eq_self.mpr]
    intro x hx
    simp only [List.mem_singleton] at hx
    subst hx
    simp only [decide_eq_true_eq]
    norm_num
  constructor
  · refine (rate_limiter_window_blocking exLimiter 30 0 0 30 []).2.1 ?_ ?_
    · show (evict [(0 : ℚ)] 30).min? = some 0
      rw [hev]; rfl
    · show 1 ≤ (evict [(0 : ℚ)] 30).length
      rw [hev]
      exact le_refl 1
  · refine (rate_limiter_window_blocking exLimiter 30 0 0 30 [0, 10]).2.2 ?_
    intro t ht
    rcases List.mem_cons.mp ht with h | h
    · subst h; norm_num
    · simp only [List.mem_singleton] at h
      subst h; norm_num

/-! ## Claim C9 -/

/-- Five recorded navigation errors whose last occurrence was at instant 0. -/
def exRecovery : ErrorRecovery :=
  { errorCounts := fun k => if k = "navigation" then 5 else 0,
    lastErrorTime := fun k => if k = "navigation" then some 0 else none }

/-- C9 (evaluation at the failing input): with `maxErrors = 5` errors whose
last occurrence is 86410 seconds (one day and ten seconds) in the past —
far outside the 300-second trailing window — `should_continue` still
returns `false`, because it compares `timedelta.seconds` (the
within-day component, here 10) instead of the total elapsed time; the
claimed "within the trailing timeWindow" behaviour (`shouldContinueSpec`)
returns `true` there.  The reset half of the claim does hold: after
`reset_error_count` the kind is allowed to continue again. -/
theorem should_continue_seconds_bug_eval :
    shouldContinue exRecovery "navigation" 86410 5 300 = false ∧
    shouldContinueSpec exRecovery "navigation" 86410 5 300 = true ∧
    (86410 : ℤ) - 0 ≥ 300 ∧
    tdSeconds ((86410 : ℤ) - 0) = 10 ∧
    shouldContinue (resetErrorCount exRecovery "navigation") "navigation" 86410 5 300
      = true := by
  refine ⟨by decide, by decide, by decide, by decide, by decide⟩

end ReceiptTracker
